import Mathlib

/-!
Verification of the gostrike native core: a shallow embedding in Lean 4 of
the signature scanner (`src/native/src/memory_module.cpp`), the gamedata
resolver (`src/native/src/gameconfig.cpp`), the schema field-offset resolver
(`src/native/src/schema.cpp`), the Go-bridge initialization state machine
(`src/native/src/go_bridge.cpp`), the funchook-based detour initializers
(`src/native/src/game_functions.cpp`, `src/native/src/chat_manager.cpp`),
and the null-argument guards of the ABI boundary callbacks.

Machine integers are modelled as `Nat`/`Int` with explicit reductions where
the C++ code casts; C pointers that can be null are modelled as `Option`;
mutable caches are explicit state threaded through the functions; external
facilities (dlopen/dlsym, funchook, the engine schema system) are oracle
parameters supplied as plain data.
-/

namespace GoStrike

/-! ## Signature parsing (`Module::ParseSignature`, memory_module.cpp:101-138)

The C++ parser produces `std::vector<int16_t>` where `-1` marks a wildcard
and all other entries are byte values in `0..255`.  We model a token as
`Option Nat`: `none` is the `-1` wildcard marker, `some v` a parsed value. -/

/-- A parsed pattern token: `none` models the `-1` wildcard sentinel of the
`int16_t` vector, `some v` a parsed hex byte value. -/
abbrev SigToken := Option Nat

/-- The `hexDigit` lambda inside `Module::ParseSignature`
(memory_module.cpp:126-131): decodes one hex character, unknown characters
decode to `0`. -/
def hexDigit (c : Char) : Nat :=
  if '0' ≤ c ∧ c ≤ '9' then c.toNat - '0'.toNat
  else if 'A' ≤ c ∧ c ≤ 'F' then c.toNat - 'A'.toNat + 10
  else if 'a' ≤ c ∧ c ≤ 'f' then c.toNat - 'a'.toNat + 10
  else 0

/-- `Module::ParseSignature` (memory_module.cpp:101-138) over the characters
of the signature string.  The source loop: skip spaces; the wildcard test
recognises `?` (optionally doubled as `??`), the token `2A`, and the token
`\x2A`, pushing the wildcard marker; otherwise it consumes a high hex digit
and, if the next character is neither the terminator nor a space, a low hex
digit (a missing low digit reads as `'0'`), pushing
`(hexDigit hi << 4) | hexDigit lo`. -/
def ParseSignature : List Char → List SigToken
  | [] => []
  | ' ' :: p => ParseSignature p
  | '?' :: '?' :: p => none :: ParseSignature p
  | '?' :: p => none :: ParseSignature p
  | '2' :: 'A' :: p => none :: ParseSignature p
  | '\\' :: 'x' :: '2' :: 'A' :: p => none :: ParseSignature p
  | hi :: lo :: p =>
      if lo = ' ' then
        some ((hexDigit hi) <<< 4 ||| hexDigit '0') :: ParseSignature (lo :: p)
      else
        some ((hexDigit hi) <<< 4 ||| hexDigit lo) :: ParseSignature p
  | [hi] => [some ((hexDigit hi) <<< 4 ||| hexDigit '0')]

example : ParseSignature "55 48 ?? E5".data = [some 0x55, some 0x48, none, some 0xE5] := by decide
example : ParseSignature "2A".data = [none] := by decide
example : ParseSignature "? 2B".data = [none, some 0x2B] := by decide
example : ParseSignature "\\x2A 55".data = [none, some 0x55] := by decide

/-! ## Signature scanning (`Module::FindSignature`, memory_module.cpp:144-174) -/

/-- One token/byte comparison inside the scan loops: a mismatch is reported
only when the token is non-wildcard (`!= -1`) and the scanned byte differs
from `static_cast<uint8_t>` of the token value (memory_module.cpp:162). -/
def tokenMatches (t : SigToken) (b : Nat) : Bool :=
  match t with
  | none => true
  | some v => b == v % 256

/-- The full-comparison inner loop of `Module::FindSignature`
(memory_module.cpp:160-166): every token of the pattern matches the byte at
the corresponding position.  Out-of-range reads yield the default `0` here;
the scan loop below only probes in-range positions. -/
def matchesAt (buf : List Nat) (sig : List SigToken) (pos : Nat) : Bool :=
  (List.range sig.length).all fun i => tokenMatches (sig.getD i none) (buf.getD (pos + i) 0)

/-- The cheap first-byte early-out at the top of the scan loop body
(memory_module.cpp:154-157). -/
def firstByteCheck (buf : List Nat) (sig : List SigToken) (pos : Nat) : Bool :=
  match sig.getD 0 none with
  | none => true
  | some v => buf.getD pos 0 == v % 256

/-- A loaded module (`class Module`, memory_module.h): base address, mapped
bytes, and the dlsym export table.  `m_base == nullptr` is modelled as
`base = 0`; `m_size` is `bytes.length`; the export lookup (dlsym on the
module handle with the `RTLD_DEFAULT` fallback, memory_module.cpp:180-192)
is external to the repository and supplied as the oracle `symbols`. -/
structure Module where
  base : Nat
  bytes : List Nat
  symbols : String → Option Nat

/-- `Module::IsInitialized` (memory_module.h:29): `m_base != nullptr`. -/
def Module.IsInitialized (m : Module) : Bool := m.base ≠ 0

/-- `Module::FindSignature` (memory_module.cpp:144-174): parse the pattern,
then slide over positions `0 .. size - sigLen` (the loop
`for (current = m_base; current <= end; ++current)` with
`end = m_base + m_size - sigLen`), returning the first position passing the
early-out and the full comparison, as an absolute address `base + i`. -/
def Module.FindSignature (m : Module) (signature : List Char) : Option Nat :=
  if m.base = 0 ∨ m.bytes.length = 0 then none
  else
    let sigBytes := ParseSignature signature
    if sigBytes.isEmpty then none
    else
      match (List.range (m.bytes.length + 1 - sigBytes.length)).find?
              (fun i => firstByteCheck m.bytes sigBytes i && matchesAt m.bytes sigBytes i) with
      | some i => some (m.base + i)
      | none => none

/-- `Module::FindSymbol` (memory_module.cpp:180-192): dlsym lookup, an
external facility represented by the module's `symbols` oracle. -/
def Module.FindSymbol (m : Module) (name : String) : Option Nat := m.symbols name

/-- The pattern occurs at offset `pos` of the buffer: the occurrence lies
inside the mapped range and every token matches. -/
def occursAt (buf : List Nat) (sig : List SigToken) (pos : Nat) : Prop :=
  pos + sig.length ≤ buf.length ∧ matchesAt buf sig pos = true

instance (buf : List Nat) (sig : List SigToken) (pos : Nat) :
    Decidable (occursAt buf sig pos) := by
  unfold occursAt; infer_instance

example :
    (Module.FindSignature ⟨0x1000, [0x90, 0x55, 0x48, 0x22, 0xE5, 0x90], fun _ => none⟩
      "55 48 ?? E5".data) = some 0x1001 := by decide

/-- A full match implies the cheap first-byte early-out also passes, so the
early-out never skips a genuine occurrence. -/
theorem matchesAt_firstByte {buf : List Nat} {sig : List SigToken} {pos : Nat}
    (hne : sig ≠ []) (h : matchesAt buf sig pos = true) :
    firstByteCheck buf sig pos = true := by
  have h0 : 0 < sig.length := List.length_pos.mpr hne
  unfold matchesAt at h
  rw [List.all_eq_true] at h
  have h1 := h 0 (List.mem_range.mpr h0)
  unfold firstByteCheck
  cases htok : sig.getD 0 none with
  | none => rfl
  | some v =>
    rw [htok] at h1
    simpa [tokenMatches] using h1

theorem length_pos_of_parse_ne {s : List Char} (h : ParseSignature s ≠ []) :
    0 < (ParseSignature s).length := List.length_pos.mpr h

/-- C1: for a wildcard-free pattern whose token sequence occurs exactly once
in the module's byte range, `Module::FindSignature` returns the address of
that occurrence (`base + offset`); when the pattern has no occurrence at all
it returns the NotFound sentinel (`nullptr`, modelled `none`). -/
theorem findSignature_wildcardFree_spec
    (m : Module) (s : List Char)
    (hbase : m.base ≠ 0) (hbuf : m.bytes ≠ [])
    (hwf : ∀ t ∈ ParseSignature s, t ≠ none)
    (hne : ParseSignature s ≠ []) :
    (∀ i0, occursAt m.bytes (ParseSignature s) i0 →
        (∀ j < m.bytes.length, occursAt m.bytes (ParseSignature s) j → j = i0) →
        m.FindSignature s = some (m.base + i0)) ∧
    ((ParseSignature s).length ≤ m.bytes.length →
        (∀ j < m.bytes.length, ¬ occursAt m.bytes (ParseSignature s) j) →
        m.FindSignature s = none) := by
  have hlen1 : 0 < (ParseSignature s).length := length_pos_of_parse_ne hne
  have hcond : ¬ (m.base = 0 ∨ m.bytes.length = 0) := by
    push_neg
    exact ⟨hbase, by simpa [List.length_eq_zero] using hbuf⟩
  have hemp : ¬ ((ParseSignature s).isEmpty = true) := by
    simpa [List.isEmpty_iff] using hne
  constructor
  · rintro i0 ⟨hle, hm⟩ huniq
    have hfb : firstByteCheck m.bytes (ParseSignature s) i0 = true := matchesAt_firstByte hne hm
    unfold Module.FindSignature
    rw [if_neg hcond, if_neg hemp]
    have hi0mem : i0 ∈ List.range (m.bytes.length + 1 - (ParseSignature s).length) :=
      List.mem_range.mpr (by omega)
    cases hfind : (List.range (m.bytes.length + 1 - (ParseSignature s).length)).find?
        (fun i => firstByteCheck m.bytes (ParseSignature s) i &&
                  matchesAt m.bytes (ParseSignature s) i) with
    | none =>
        rw [List.find?_eq_none] at hfind
        exact absurd (by rw [hfb, hm]; rfl) (hfind i0 hi0mem)
    | some j =>
        have hpj := List.find?_some hfind
        have hjmem := List.mem_of_find?_eq_some hfind
        rw [List.mem_range] at hjmem
        have hmj : matchesAt m.bytes (ParseSignature s) j = true :=
          (Bool.and_eq_true _ _ |>.mp hpj).2
        have hjle : j + (ParseSignature s).length ≤ m.bytes.length := by omega
        have : j = i0 := huniq j (by omega) ⟨hjle, hmj⟩
        simp [this]
  · intro hlenle hno
    unfold Module.FindSignature
    rw [if_neg hcond, if_neg hemp]
    have : (List.range (m.bytes.length + 1 - (ParseSignature s).length)).find?
        (fun i => firstByteCheck m.bytes (ParseSignature s) i &&
                  matchesAt m.bytes (ParseSignature s) i) = none := by
      rw [List.find?_eq_none]
      intro i himem hpi
      rw [List.mem_range] at himem
      have hmi : matchesAt m.bytes (ParseSignature s) i = true :=
        (Bool.and_eq_true _ _ |>.mp hpi).2
      exact hno i (by omega) ⟨by omega, hmi⟩
    rw [this]

/-- Witness for C1 at concrete inputs: pattern `55 48 E5` occurs exactly
once at offset 1 of the first buffer and never in the second. -/
theorem findSignature_wildcardFree_spec_witness :
    (Module.FindSignature ⟨0x1000, [1, 0x55, 0x48, 0xE5, 2], fun _ => none⟩ "55 48 E5".data
      = some (0x1000 + 1)) ∧
    (Module.FindSignature ⟨0x1000, [1, 2, 3, 4, 5], fun _ => none⟩ "55 48 E5".data
      = none) := by
  constructor
  · exact (findSignature_wildcardFree_spec ⟨0x1000, [1, 0x55, 0x48, 0xE5, 2], fun _ => none⟩
      "55 48 E5".data (by decide) (by decide) (by decide) (by decide)).1
      1 (by decide) (by decide)
  · exact (findSignature_wildcardFree_spec ⟨0x1000, [1, 2, 3, 4, 5], fun _ => none⟩
      "55 48 E5".data (by decide) (by decide) (by decide) (by decide)).2
      (by decide) (by decide)

/-- C2: for a pattern containing wildcards, any byte sequence agreeing with
the pattern's non-wildcard byte values (and arbitrary at wildcard
positions) matches: the full comparison succeeds at that offset, and the
scan returns an address. -/
theorem findSignature_wildcard_spec
    (m : Module) (s : List Char) (i : Nat)
    (hbase : m.base ≠ 0) (hbuf : m.bytes ≠ [])
    (hne : ParseSignature s ≠ [])
    (hle : i + (ParseSignature s).length ≤ m.bytes.length)
    (hagree : ∀ j < (ParseSignature s).length,
        ∀ v ∈ (ParseSignature s).getD j none,
        m.bytes.getD (i + j) 0 = v % 256) :
    matchesAt m.bytes (ParseSignature s) i = true ∧
    (m.FindSignature s).isSome = true := by
  have hlen1 : 0 < (ParseSignature s).length := length_pos_of_parse_ne hne
  have hm : matchesAt m.bytes (ParseSignature s) i = true := by
    unfold matchesAt
    rw [List.all_eq_true]
    intro j hjmem
    rw [List.mem_range] at hjmem
    cases htok : (ParseSignature s).getD j none with
    | none => rfl
    | some v =>
        have hv := hagree j hjmem v (by rw [htok]; rfl)
        simp only [tokenMatches]
        rw [hv]
        simp
  refine ⟨hm, ?_⟩
  have hcond : ¬ (m.base = 0 ∨ m.bytes.length = 0) := by
    push_neg
    exact ⟨hbase, by simpa [List.length_eq_zero] using hbuf⟩
  have hemp : ¬ ((ParseSignature s).isEmpty = true) := by
    simpa [List.isEmpty_iff] using hne
  unfold Module.FindSignature
  rw [if_neg hcond, if_neg hemp]
  cases hfind : (List.range (m.bytes.length + 1 - (ParseSignature s).length)).find?
      (fun k => firstByteCheck m.bytes (ParseSignature s) k &&
                matchesAt m.bytes (ParseSignature s) k) with
  | none =>
      rw [List.find?_eq_none] at hfind
      have hi : i ∈ List.range (m.bytes.length + 1 - (ParseSignature s).length) :=
        List.mem_range.mpr (by omega)
      exact absurd (by rw [matchesAt_firstByte hne hm, hm]; rfl) (hfind i hi)
  | some j => rfl

/-- Witness for C2 at concrete inputs: the buffer carries `0x77` at the
wildcard position of `55 ?? E5` and still matches. -/
theorem findSignature_wildcard_spec_witness :
    matchesAt [0x55, 0x77, 0xE5] (ParseSignature "55 ?? E5".data) 0 = true ∧
    ((Module.FindSignature ⟨0x2000, [0x55, 0x77, 0xE5], fun _ => none⟩
      "55 ?? E5".data).isSome = true) :=
  findSignature_wildcard_spec ⟨0x2000, [0x55, 0x77, 0xE5], fun _ => none⟩
    "55 ?? E5".data 0 (by decide) (by decide) (by decide) (by decide)
    (by decide)

/-- C10: the parser maps each of the textual tokens `?`, `??`, `2A` and
`\x2A` to the single internal wildcard marker; a wildcard token matches
every byte during scanning; consequently the token `2A` never denotes the
literal byte `0x2A`. -/
theorem parseSignature_wildcard_tokens :
    ParseSignature "?".data = [none] ∧
    ParseSignature "??".data = [none] ∧
    ParseSignature "2A".data = [none] ∧
    ParseSignature "\\x2A".data = [none] ∧
    (∀ p, ParseSignature ('?' :: '?' :: p) = none :: ParseSignature p) ∧
    (∀ p, ParseSignature ('2' :: 'A' :: p) = none :: ParseSignature p) ∧
    (∀ p, ParseSignature ('\\' :: 'x' :: '2' :: 'A' :: p) = none :: ParseSignature p) ∧
    (∀ b, tokenMatches none b = true) ∧
    (∀ p, (((ParseSignature ('2' :: 'A' :: p)).headD (some 0)) == some 0x2A) = false) := by
  refine ⟨by decide, by decide, by decide, by decide, ?_, ?_, ?_, ?_, ?_⟩
  · intro p; simp [ParseSignature]
  · intro p; simp [ParseSignature]
  · intro p; simp [ParseSignature]
  · intro b; rfl
  · intro p; simp [ParseSignature]

/-! ## GameData configuration (`GameConfig`, gameconfig.cpp)

The declarative tables loaded once by `GameConfig::Init` are immutable; the
only mutable state of `ResolveSignature` is the `m_addressCache` map, which
we thread explicitly, together with a ghost counter of signature-scan
invocations (one increment per `Module::FindSignature` call) so that
"no second scan" is a provable statement. -/

/-- The immutable tables of `GameConfig` (gameconfig.h:47-49), modelled as
association lists. -/
structure GameConfig where
  signatures : List (String × String)
  libraries : List (String × String)
  offsets : List (String × Int)

/-- The three well-known process modules (`modules::server/engine/tier0`,
memory_module.cpp:198-202). -/
structure Modules where
  server : Module
  engine : Module
  tier0 : Module

/-- The mutable resolver state: `m_addressCache` (gameconfig.h:50; a cached
entry may itself be a null address, hence `Option Nat` values) plus the
ghost scan counter. -/
structure ResolveState where
  addressCache : List (String × Option Nat)
  scans : Nat

/-- `GameConfig::GetLibrary` (gameconfig.cpp:74-78): `nullptr` on a missing
entry becomes `none`. -/
def GameConfig.GetLibrary (c : GameConfig) (n : String) : Option String :=
  c.libraries.lookup n

/-- `GameConfig::GetSignature` (gameconfig.cpp:80-84). -/
def GameConfig.GetSignature (c : GameConfig) (n : String) : Option String :=
  c.signatures.lookup n

/-- `GameConfig::GetOffset` (gameconfig.cpp:86-90): `-1` sentinel when the
entry is absent. -/
def GameConfig.GetOffset (c : GameConfig) (n : String) : Int :=
  (c.offsets.lookup n).getD (-1)

/-- `GameConfig::IsSymbol` (gameconfig.cpp:92-94): the signature string is a
symbol request when its first character is `'@'`. -/
def GameConfig.IsSymbol (sig : String) : Bool :=
  match sig.data with
  | '@' :: _ => true
  | _ => false

/-- `GameConfig::GetModule` (gameconfig.cpp:96-105): map the entry's library
name to one of the three well-known modules. -/
def GameConfig.GetModule (mods : Modules) (c : GameConfig) (n : String) : Option Module :=
  match c.GetLibrary n with
  | none => none
  | some lib =>
      if lib = "server" then some mods.server
      else if lib = "engine" then some mods.engine
      else if lib = "tier0" then some mods.tier0
      else none

/-- `GameConfig::ResolveSignature` (gameconfig.cpp:107-152).  Cache hit
returns the memoized value (even a cached null).  On a miss: a missing or
uninitialized module, or a missing signature string, return null *without*
touching the cache (the early returns at lines 116-126); otherwise the
symbol lookup or signature scan runs and its outcome — address or null —
is stored in the cache (line 145).  The ghost `scans` counter increments
exactly when `Module::FindSignature` is invoked. -/
def GameConfig.ResolveSignature (mods : Modules) (c : GameConfig)
    (st : ResolveState) (name : String) : Option Nat × ResolveState :=
  match st.addressCache.lookup name with
  | some cached => (cached, st)
  | none =>
    match GameConfig.GetModule mods c name with
    | none => (none, st)
    | some m =>
      if !m.IsInitialized then (none, st)
      else
        match c.GetSignature name with
        | none => (none, st)
        | some sig =>
          if GameConfig.IsSymbol sig then
            let addr := m.FindSymbol (sig.drop 1)
            (addr, { addressCache := (name, addr) :: st.addressCache, scans := st.scans })
          else
            let addr := m.FindSignature sig.data
            (addr, { addressCache := (name, addr) :: st.addressCache, scans := st.scans + 1 })

/-- A sequence of further `ResolveSignature` calls, state-threaded. -/
def resolveMany (mods : Modules) (c : GameConfig) :
    ResolveState → List String → ResolveState
  | st, [] => st
  | st, n :: L => resolveMany mods c (GameConfig.ResolveSignature mods c st n).2 L

/-- The resolution of `name` fails before reaching the symbol/scan step:
module missing or uninitialized, or no signature string (the early-return
paths of gameconfig.cpp:116-126). -/
def earlyFails (mods : Modules) (c : GameConfig) (n : String) : Bool :=
  match GameConfig.GetModule mods c n with
  | none => true
  | some m => !m.IsInitialized || (c.GetSignature n).isNone

/-- A module that was never `Initialize`d. -/
def emptyModule : Module := ⟨0, [], fun _ => none⟩

theorem resolve_hit {mods : Modules} {c : GameConfig} {st : ResolveState} {n : String}
    {v : Option Nat} (h : st.addressCache.lookup n = some v) :
    GameConfig.ResolveSignature mods c st n = (v, st) := by
  unfold GameConfig.ResolveSignature
  rw [h]

theorem earlyFails_of_no_module {mods : Modules} {c : GameConfig} {n : String}
    (h : GameConfig.GetModule mods c n = none) : earlyFails mods c n = true := by
  unfold earlyFails
  rw [h]

theorem earlyFails_of_module {mods : Modules} {c : GameConfig} {n : String} {mo : Module}
    (h : GameConfig.GetModule mods c n = some mo) :
    earlyFails mods c n = (!mo.IsInitialized || (c.GetSignature n).isNone) := by
  unfold earlyFails
  rw [h]

theorem resolve_earlyFail {mods : Modules} {c : GameConfig} {st : ResolveState} {n : String}
    (hmiss : st.addressCache.lookup n = none)
    (hf : earlyFails mods c n = true) :
    GameConfig.ResolveSignature mods c st n = (none, st) := by
  cases hmod : GameConfig.GetModule mods c n with
  | none =>
      unfold GameConfig.ResolveSignature
      simp [hmiss, hmod]
  | some mo =>
      rw [earlyFails_of_module hmod] at hf
      cases hinit : mo.IsInitialized with
      | false =>
          unfold GameConfig.ResolveSignature
          simp [hmiss, hmod, hinit]
      | true =>
          rw [hinit] at hf
          simp only [Bool.not_true, Bool.false_or] at hf
          rw [Option.isNone_iff_eq_none] at hf
          unfold GameConfig.ResolveSignature
          simp [hmiss, hmod, hinit, hf]

/-- Shape of one `ResolveSignature` step: either the state is returned
unchanged, or (on a cache miss that reaches the symbol/scan step) exactly
one cache entry for the requested name is prepended. -/
theorem resolve_cache_shape (mods : Modules) (c : GameConfig) (st : ResolveState)
    (m : String) :
    (GameConfig.ResolveSignature mods c st m).2 = st ∨
    (st.addressCache.lookup m = none ∧ earlyFails mods c m = false ∧
      ((GameConfig.ResolveSignature mods c st m).2).addressCache
        = (m, (GameConfig.ResolveSignature mods c st m).1) :: st.addressCache) := by
  cases hl : st.addressCache.lookup m with
  | some v => exact Or.inl (by simp [GameConfig.ResolveSignature, hl])
  | none =>
    cases hmod : GameConfig.GetModule mods c m with
    | none => exact Or.inl (by simp [GameConfig.ResolveSignature, hl, hmod])
    | some mo =>
      cases hinit : mo.IsInitialized with
      | false => exact Or.inl (by simp [GameConfig.ResolveSignature, hl, hmod, hinit])
      | true =>
        cases hsig : c.GetSignature m with
        | none => exact Or.inl (by simp [GameConfig.ResolveSignature, hl, hmod, hinit, hsig])
        | some sig =>
          have hef : earlyFails mods c m = false := by
            rw [earlyFails_of_module hmod, hinit, hsig]
            rfl
          cases hsym : GameConfig.IsSymbol sig with
          | true =>
              right
              refine ⟨rfl, hef, ?_⟩
              simp [GameConfig.ResolveSignature, hl, hmod, hinit, hsig, hsym]
          | false =>
              right
              refine ⟨rfl, hef, ?_⟩
              simp [GameConfig.ResolveSignature, hl, hmod, hinit, hsig, hsym]

theorem resolve_preserves_entry {mods : Modules} {c : GameConfig} {st : ResolveState}
    {m n : String} {v : Option Nat} (h : st.addressCache.lookup n = some v) :
    ((GameConfig.ResolveSignature mods c st m).2).addressCache.lookup n = some v := by
  rcases resolve_cache_shape mods c st m with heq | ⟨hm, _, hcons⟩
  · rw [heq]; exact h
  · rw [hcons]
    cases hnm : n == m
    · simpa [List.lookup, hnm] using h
    · exfalso
      have : n = m := eq_of_beq hnm
      rw [this, hm] at h
      cases h

theorem resolve_preserves_none_of_earlyFail {mods : Modules} {c : GameConfig}
    {st : ResolveState} {m n : String}
    (h : st.addressCache.lookup n = none) (hf : earlyFails mods c n = true) :
    ((GameConfig.ResolveSignature mods c st m).2).addressCache.lookup n = none := by
  rcases resolve_cache_shape mods c st m with heq | ⟨hm, hef, hcons⟩
  · rw [heq]; exact h
  · rw [hcons]
    cases hnm : n == m
    · simpa [List.lookup, hnm] using h
    · exfalso
      have : n = m := eq_of_beq hnm
      rw [this, hef] at hf
      cases hf

theorem resolveMany_preserves_entry {mods : Modules} {c : GameConfig} {n : String}
    {v : Option Nat} :
    ∀ (L : List String) (st : ResolveState), st.addressCache.lookup n = some v →
      (resolveMany mods c st L).addressCache.lookup n = some v
  | [], _, h => h
  | _ :: L, _, h => resolveMany_preserves_entry L _ (resolve_preserves_entry h)

theorem resolveMany_preserves_none_of_earlyFail {mods : Modules} {c : GameConfig}
    {n : String} (hf : earlyFails mods c n = true) :
    ∀ (L : List String) (st : ResolveState), st.addressCache.lookup n = none →
      (resolveMany mods c st L).addressCache.lookup n = none
  | [], _, h => h
  | _ :: L, _, h =>
      resolveMany_preserves_none_of_earlyFail hf L _
        (resolve_preserves_none_of_earlyFail h hf)

/-- On a cache miss that reaches the symbol/scan step, the call's outcome —
address or null — ends up in the cache keyed by the requested name. -/
theorem resolve_miss_caches {mods : Modules} {c : GameConfig} {st : ResolveState}
    {n : String}
    (hl : st.addressCache.lookup n = none) (hef : earlyFails mods c n = false) :
    ((GameConfig.ResolveSignature mods c st n).2).addressCache.lookup n
      = some (GameConfig.ResolveSignature mods c st n).1 := by
  cases hmod : GameConfig.GetModule mods c n with
  | none => rw [earlyFails_of_no_module hmod] at hef; cases hef
  | some mo =>
    rw [earlyFails_of_module hmod] at hef
    cases hinit : mo.IsInitialized with
    | false => rw [hinit] at hef; simp at hef
    | true =>
      rw [hinit] at hef
      simp only [Bool.not_true, Bool.false_or] at hef
      cases hsig : c.GetSignature n with
      | none => rw [hsig] at hef; simp at hef
      | some sig =>
        cases hsym : GameConfig.IsSymbol sig with
        | true => simp [GameConfig.ResolveSignature, hl, hmod, hinit, hsig, hsym, List.lookup]
        | false => simp [GameConfig.ResolveSignature, hl, hmod, hinit, hsig, hsym, List.lookup]

/-- C4: `ResolveSignature` is stable across repeated calls.  After a first
call for `n` (resolving or failing) and any interleaved sequence `L` of
further calls, a later call for `n` returns the identical result — the
cached address on success, null again on failure — and performs no
additional signature scan (the ghost scan counter is unchanged). -/
theorem resolveSignature_stable (mods : Modules) (c : GameConfig)
    (st : ResolveState) (n : String) (L : List String) :
    ((GameConfig.ResolveSignature mods c
        (resolveMany mods c (GameConfig.ResolveSignature mods c st n).2 L) n).1
      = (GameConfig.ResolveSignature mods c st n).1) ∧
    ((GameConfig.ResolveSignature mods c
        (resolveMany mods c (GameConfig.ResolveSignature mods c st n).2 L) n).2.scans
      = (resolveMany mods c (GameConfig.ResolveSignature mods c st n).2 L).scans) := by
  cases hl : st.addressCache.lookup n with
  | some v =>
    have h1 : GameConfig.ResolveSignature mods c st n = (v, st) := resolve_hit hl
    have h2 := @resolveMany_preserves_entry mods c n v L
      (GameConfig.ResolveSignature mods c st n).2 (by rw [h1]; exact hl)
    have h3 := @resolve_hit mods c
      (resolveMany mods c (GameConfig.ResolveSignature mods c st n).2 L) n v h2
    rw [h3, h1]
    exact ⟨rfl, rfl⟩
  | none =>
    cases hef : earlyFails mods c n with
    | true =>
      have h1 : GameConfig.ResolveSignature mods c st n = (none, st) :=
        resolve_earlyFail hl hef
      have h2 := resolveMany_preserves_none_of_earlyFail hef L
        (GameConfig.ResolveSignature mods c st n).2 (by rw [h1]; exact hl)
      have h3 := resolve_earlyFail h2 hef
      rw [h3, h1]
      exact ⟨rfl, rfl⟩
    | false =>
      have hself := resolve_miss_caches hl hef
      have h2 := @resolveMany_preserves_entry mods c n
        (GameConfig.ResolveSignature mods c st n).1 L
        (GameConfig.ResolveSignature mods c st n).2 hself
      have h3 := @resolve_hit mods c
        (resolveMany mods c (GameConfig.ResolveSignature mods c st n).2 L) n
        (GameConfig.ResolveSignature mods c st n).1 h2
      rw [h3]
      exact ⟨rfl, rfl⟩

/-- C5 counterexample: with an empty config table, `ResolveSignature "Foo"`
fails (missing config entry) yet writes no cache entry for `"Foo"` — the
call returns null with the state unchanged, so the claim that every kind of
failure leaves a cache entry keyed by the name is false. -/
theorem resolveSignature_missing_entry_not_cached :
    (GameConfig.ResolveSignature ⟨emptyModule, emptyModule, emptyModule⟩
        ⟨[], [], []⟩ ⟨[], 0⟩ "Foo").1 = none ∧
    ((GameConfig.ResolveSignature ⟨emptyModule, emptyModule, emptyModule⟩
        ⟨[], [], []⟩ ⟨[], 0⟩ "Foo").2).addressCache.lookup "Foo" = none ∧
    (GameConfig.ResolveSignature ⟨emptyModule, emptyModule, emptyModule⟩
        ⟨[], [], []⟩ ⟨[], 0⟩ "Foo").2 = ⟨[], 0⟩ :=
  ⟨rfl, rfl, rfl⟩

/-- C5 (amended): the outcome of `ResolveSignature` is memoized only when
resolution reaches the symbol-lookup/signature-scan step — there both a
resolved address and a null miss are cached under the name, so such a name
is never rescanned; the earlier failures (missing config entry, unmapped
or unknown library, missing signature string) return null with the cache
untouched. -/
theorem resolveSignature_cache_policy (mods : Modules) (c : GameConfig)
    (st : ResolveState) (n : String)
    (hl : st.addressCache.lookup n = none) :
    (earlyFails mods c n = true →
      GameConfig.ResolveSignature mods c st n = (none, st)) ∧
    (earlyFails mods c n = false →
      ((GameConfig.ResolveSignature mods c st n).2).addressCache.lookup n
        = some (GameConfig.ResolveSignature mods c st n).1) :=
  ⟨fun hf => resolve_earlyFail hl hf, fun hf => resolve_miss_caches hl hf⟩

/-- Witness for C5 (amended) at concrete inputs: a missing config entry is
not cached; a resolution that reaches the scan step is cached. -/
theorem resolveSignature_cache_policy_witness :
    (GameConfig.ResolveSignature ⟨emptyModule, emptyModule, emptyModule⟩
        ⟨[], [], []⟩ ⟨[], 0⟩ "Foo" = (none, ⟨[], 0⟩)) ∧
    (((GameConfig.ResolveSignature ⟨⟨0x1000, [0x2B], fun _ => none⟩, emptyModule, emptyModule⟩
        ⟨[("Bar", "2B")], [("Bar", "server")], []⟩ ⟨[], 0⟩ "Bar").2).addressCache.lookup "Bar"
      = some (GameConfig.ResolveSignature ⟨⟨0x1000, [0x2B], fun _ => none⟩, emptyModule, emptyModule⟩
        ⟨[("Bar", "2B")], [("Bar", "server")], []⟩ ⟨[], 0⟩ "Bar").1) := by
  constructor
  · exact (resolveSignature_cache_policy ⟨emptyModule, emptyModule, emptyModule⟩
      ⟨[], [], []⟩ ⟨[], 0⟩ "Foo" rfl).1 rfl
  · exact (resolveSignature_cache_policy ⟨⟨0x1000, [0x2B], fun _ => none⟩, emptyModule, emptyModule⟩
      ⟨[("Bar", "2B")], [("Bar", "server")], []⟩ ⟨[], 0⟩ "Bar" rfl).2 rfl

/-- The C3 scenario module `"server"`: base `0x1000`, size `0x500`, the
bytes `55 48 22 E5` at relative offset `0x120`, zero elsewhere. -/
def serverC3 : Module :=
  { base := 0x1000
  , bytes := List.replicate 0x120 0 ++ ([0x55, 0x48, 0x22, 0xE5] ++ List.replicate 0x3DC 0)
  , symbols := fun _ => none }

/-- The C3 scenario config: `"Foo"` carries the linux pattern
`"55 48 ?? E5"` in library `"server"`. -/
def cfgC3 : GameConfig :=
  { signatures := [("Foo", "55 48 ?? E5")]
  , libraries := [("Foo", "server")]
  , offsets := [] }

def modsC3 : Modules := ⟨serverC3, emptyModule, emptyModule⟩

/-- `find?` over a range returns the first position satisfying the
predicate: if `i` satisfies it and no earlier position does, the scan stops
at `i`. -/
theorem find?_range_eq_some {p : Nat → Bool} {n i : Nat}
    (hi : i < n) (hp : p i = true) (hbefore : ∀ j < i, p j = false) :
    (List.range n).find? p = some i := by
  have hsplit : List.range n = List.range i ++ (List.range (n - i)).map (i + ·) := by
    rw [← List.range_add]
    congr 1
    omega
  have h1 : (List.range i).find? p = none := by
    rw [List.find?_eq_none]
    intro x hx
    rw [List.mem_range] at hx
    simp [hbefore x hx]
  have h2 : n - i = (n - i - 1) + 1 := by omega
  rw [hsplit, List.find?_append, h1, h2, List.range_succ_eq_map]
  simp only [List.map_cons, Nat.add_zero, Option.none_or]
  rw [List.find?_cons_of_pos _ hp]

theorem serverC3_length : serverC3.bytes.length = 0x500 := by
  have hb : serverC3.bytes
      = List.replicate 0x120 0 ++ ([0x55, 0x48, 0x22, 0xE5] ++ List.replicate 0x3DC 0) := rfl
  rw [hb]
  simp only [List.length_append, List.length_replicate, List.length_cons, List.length_nil]

theorem serverC3_byte_lt {j : Nat} (h : j < 0x120) : serverC3.bytes[j]? = some 0 := by
  have hb : serverC3.bytes
      = List.replicate 0x120 0 ++ ([0x55, 0x48, 0x22, 0xE5] ++ List.replicate 0x3DC 0) := rfl
  rw [hb, List.getElem?_append_left (by rw [List.length_replicate]; exact h),
    List.getElem?_replicate_of_lt h]

theorem serverC3_byte_mid (k : Nat) (hk : k < 4) :
    serverC3.bytes[0x120 + k]? = [0x55, 0x48, 0x22, 0xE5][k]? := by
  have hb : serverC3.bytes
      = List.replicate 0x120 0 ++ ([0x55, 0x48, 0x22, 0xE5] ++ List.replicate 0x3DC 0) := rfl
  rw [hb, List.getElem?_append_right (by rw [List.length_replicate]; omega),
    List.length_replicate]
  rw [show (0x120 : Nat) + k - 0x120 = k by omega]
  rw [List.getElem?_append_left (by simpa using hk)]

theorem serverC3_byte_match :
    serverC3.bytes[0x120]? = some 0x55 ∧ serverC3.bytes[0x121]? = some 0x48 ∧
    serverC3.bytes[0x122]? = some 0x22 ∧ serverC3.bytes[0x123]? = some 0xE5 := by
  refine ⟨?_, ?_, ?_, ?_⟩
  · have h := serverC3_byte_mid 0 (by norm_num)
    rw [show (0x120 : Nat) + 0 = 0x120 from rfl] at h
    exact h.trans rfl
  · have h := serverC3_byte_mid 1 (by norm_num)
    rw [show (0x120 : Nat) + 1 = 0x121 from rfl] at h
    exact h.trans rfl
  · have h := serverC3_byte_mid 2 (by norm_num)
    rw [show (0x120 : Nat) + 2 = 0x122 from rfl] at h
    exact h.trans rfl
  · have h := serverC3_byte_mid 3 (by norm_num)
    rw [show (0x120 : Nat) + 3 = 0x123 from rfl] at h
    exact h.trans rfl

theorem serverC3_scanStep_before : ∀ j < 0x120,
    (firstByteCheck serverC3.bytes [some 0x55, some 0x48, none, some 0xE5] j &&
     matchesAt serverC3.bytes [some 0x55, some 0x48, none, some 0xE5] j) = false := by
  intro j hj
  have hbj := serverC3_byte_lt hj
  simp [firstByteCheck, hbj]

theorem serverC3_scanStep_at :
    (firstByteCheck serverC3.bytes [some 0x55, some 0x48, none, some 0xE5] 0x120 &&
     matchesAt serverC3.bytes [some 0x55, some 0x48, none, some 0xE5] 0x120) = true := by
  obtain ⟨h0, h1, h2, h3⟩ := serverC3_byte_match
  refine (Bool.and_eq_true _ _).mpr ⟨?_, ?_⟩
  · simp [firstByteCheck, h0]
  · unfold matchesAt
    rw [List.all_eq_true]
    intro x hx
    rw [show ([some 0x55, some 0x48, none, some 0xE5] : List SigToken).length = 4 from rfl,
      List.mem_range] at hx
    interval_cases x <;> simp [tokenMatches, h0, h1, h2, h3]

/-- The C3 scan: the pattern `55 48 ?? E5` is first found at offset
`0x120`, so `FindSignature` returns `0x1000 + 0x120 = 0x1120`. -/
theorem serverC3_findSignature :
    serverC3.FindSignature "55 48 ?? E5".data = some 0x1120 := by
  have hparse : ParseSignature "55 48 ?? E5".data
      = [some 0x55, some 0x48, none, some 0xE5] := by decide
  have hbase : serverC3.base = 0x1000 := rfl
  have hcond : ¬ (serverC3.base = 0 ∨ serverC3.bytes.length = 0) := by
    rw [hbase, serverC3_length]
    norm_num
  have hemp : ¬ ((ParseSignature "55 48 ?? E5".data).isEmpty = true) := by
    rw [hparse]
    decide
  have hfind : (List.range 0x4FD).find?
      (fun i => firstByteCheck serverC3.bytes [some 0x55, some 0x48, none, some 0xE5] i &&
                matchesAt serverC3.bytes [some 0x55, some 0x48, none, some 0xE5] i)
      = some 0x120 :=
    find?_range_eq_some (by norm_num) serverC3_scanStep_at serverC3_scanStep_before
  unfold Module.FindSignature
  rw [if_neg hcond, if_neg hemp, serverC3_length, hparse]
  rw [show (0x500 : Nat) + 1 - ([some 0x55, some 0x48, none, some 0xE5] :
      List SigToken).length = 0x4FD by decide]
  rw [hfind]
  simp [hbase]

/-- C3: in the concrete scenario, the first `ResolveSignature "Foo"` call
returns `0x1120` (one scan performed), and a second call returns `0x1120`
again from the cache with zero additional scans. -/
theorem resolveSignature_scenario :
    (GameConfig.ResolveSignature modsC3 cfgC3 ⟨[], 0⟩ "Foo").1 = some 0x1120 ∧
    (GameConfig.ResolveSignature modsC3 cfgC3
        (GameConfig.ResolveSignature modsC3 cfgC3 ⟨[], 0⟩ "Foo").2 "Foo").1 = some 0x1120 ∧
    (GameConfig.ResolveSignature modsC3 cfgC3
        (GameConfig.ResolveSignature modsC3 cfgC3 ⟨[], 0⟩ "Foo").2 "Foo").2.scans
      = (GameConfig.ResolveSignature modsC3 cfgC3 ⟨[], 0⟩ "Foo").2.scans ∧
    (GameConfig.ResolveSignature modsC3 cfgC3 ⟨[], 0⟩ "Foo").2.scans = 1 := by
  have hmod : GameConfig.GetModule modsC3 cfgC3 "Foo" = some serverC3 := by
    simp [GameConfig.GetModule, GameConfig.GetLibrary, cfgC3, modsC3]
  have hinit : serverC3.IsInitialized = true := by
    have hbase : serverC3.base = 0x1000 := rfl
    simp [Module.IsInitialized, hbase]
  have hsig : cfgC3.GetSignature "Foo" = some "55 48 ?? E5" := by
    simp [GameConfig.GetSignature, cfgC3]
  have hsym : GameConfig.IsSymbol "55 48 ?? E5" = false := by decide
  have h1 : GameConfig.ResolveSignature modsC3 cfgC3 ⟨[], 0⟩ "Foo"
      = (some 0x1120, ⟨[("Foo", some 0x1120)], 1⟩) := by
    unfold GameConfig.ResolveSignature
    simp only [List.lookup_nil, hmod, hinit, hsig, hsym, Bool.not_true, Bool.false_eq_true,
      if_false]
    rw [serverC3_findSignature]
  have h2 : GameConfig.ResolveSignature modsC3 cfgC3 ⟨[("Foo", some 0x1120)], 1⟩ "Foo"
      = (some 0x1120, ⟨[("Foo", some 0x1120)], 1⟩) :=
    resolve_hit (by simp)
  rw [h1, h2]
  exact ⟨rfl, rfl, rfl, rfl⟩

/-! ## Schema resolver (`schema.cpp`)

The engine's live reflection facility (`gs_pSchemaSystem`, its type scopes
and `SchemaClassInfoData_t` records) is an external collaborator; it enters
the model as oracle data.  The lookup algorithm, the FNV-1a cache keys and
the cache policy are translated from schema.cpp. -/

namespace schema

/-- FNV-1a 32-bit string hash (`FnvHash`, schema.cpp:27-34): `uint32_t`
arithmetic is `Nat` reduced mod `2^32`, each character read as a byte. -/
def FnvHash (s : String) : Nat :=
  s.data.foldl (fun h c => ((h ^^^ (c.toNat % 256)) * 0x01000193) % 2 ^ 32) 0x811c9dc5

/-- `CombinedHash` (schema.cpp:37-41): `(h1 << 32) | h2` as the 64-bit
cache key. -/
def CombinedHash (className fieldName : String) : Nat :=
  (FnvHash className) <<< 32 ||| FnvHash fieldName

/-- `SchemaKey` (schema.h:15-18). -/
structure SchemaKey where
  offset : Int
  networked : Bool
deriving DecidableEq

/-- One reflected field (`SchemaClassFieldData_t`): nullable name,
single-inheritance offset, and the nullable names of its static metadata
entries. -/
structure SchemaField where
  name : Option String
  offset : Int
  metadata : List (Option String)

/-- `IsFieldNetworked` (schema.cpp:54-63): some static metadata entry is
named `MNetworkEnable`. -/
def IsFieldNetworked (f : SchemaField) : Bool :=
  f.metadata.any (fun m => m == some "MNetworkEnable")

/-- Reflected class info (`SchemaClassInfoData_t`): the declared field list
and the first entry of the base-class list
(`m_pBaseClasses->m_pClass`) — the only base the code ever consults. -/
inductive ClassInfo where
  | mk (fields : List SchemaField) (base : Option ClassInfo)

def ClassInfo.fields : ClassInfo → List SchemaField
  | .mk fs _ => fs

def ClassInfo.base : ClassInfo → Option ClassInfo
  | .mk _ b => b

/-- The field-search loops of `GetOffset` (schema.cpp:150-159 and 167-176):
first field whose non-null name equals the requested name. -/
def findField (fields : List SchemaField) (fieldName : String) : Option SchemaField :=
  fields.find? (fun f => f.name == some fieldName)

/-- The external schema environment: availability of `gs_pSchemaSystem`,
the server-module type scope (`FindTypeScopeForModule`) and the global type
scope, each mapping class names to reflected class info. -/
structure SchemaEnv where
  hasSystem : Bool
  serverScope : Option (String → Option ClassInfo)
  globalScope : Option (String → Option ClassInfo)

/-- `schema::GetOffset` (schema.cpp:100-185).  Null arguments return the
`{0, false}` sentinel before anything else.  A cache hit returns the
memoized key.  A missing schema system or missing server scope returns the
sentinel *without* caching (lines 112-129).  Otherwise: resolve the class
in the server scope with a global-scope fallback (an unresolvable class
caches the sentinel, line 142); search the class's own field list; on a
miss search the single immediate base class's field list; cache whatever
was found, or the `{0, false}` sentinel (line 183). -/
def GetOffset (env : SchemaEnv) (cache : List (Nat × SchemaKey))
    (className fieldName : Option String) : SchemaKey × List (Nat × SchemaKey) :=
  match className, fieldName with
  | some cls, some fld =>
    let key := CombinedHash cls fld
    (match cache.lookup key with
     | some v => (v, cache)
     | none =>
       if !env.hasSystem then (⟨0, false⟩, cache)
       else
         match env.serverScope with
         | none => (⟨0, false⟩, cache)
         | some scope =>
           let pClassInfo :=
             match scope cls with
             | some ci => some ci
             | none =>
               match env.globalScope with
               | some g => g cls
               | none => none
           match pClassInfo with
           | none => (⟨0, false⟩, (key, ⟨0, false⟩) :: cache)
           | some ci =>
             match findField ci.fields fld with
             | some f =>
                 (⟨f.offset, IsFieldNetworked f⟩,
                   (key, ⟨f.offset, IsFieldNetworked f⟩) :: cache)
             | none =>
               match ci.base with
               | some b =>
                 match findField b.fields fld with
                 | some f =>
                     (⟨f.offset, IsFieldNetworked f⟩,
                       (key, ⟨f.offset, IsFieldNetworked f⟩) :: cache)
                 | none => (⟨0, false⟩, (key, ⟨0, false⟩) :: cache)
               | none => (⟨0, false⟩, (key, ⟨0, false⟩) :: cache))
  | _, _ => (⟨0, false⟩, cache)

end schema

/-- C6: on a cache miss with the schema system and server scope available
and the class resolvable, `schema::GetOffset` searches the type's own
declared field list first; a field found only on the single immediate base
class still resolves, with that field's offset and networked flag; a field
absent from both the type and its immediate base — in particular one
declared two or more inheritance levels up — fails, returning and caching
the `{0, false}` sentinel. -/
theorem schema_getOffset_one_level (env : schema.SchemaEnv)
    (cache : List (Nat × schema.SchemaKey)) (cls fld : String)
    (scope : String → Option schema.ClassInfo) (ci : schema.ClassInfo)
    (hmiss : cache.lookup (schema.CombinedHash cls fld) = none)
    (hsys : env.hasSystem = true)
    (hscope : env.serverScope = some scope)
    (hci : scope cls = some ci) :
    (∀ f, schema.findField ci.fields fld = some f →
        schema.GetOffset env cache (some cls) (some fld)
          = (⟨f.offset, schema.IsFieldNetworked f⟩,
             (schema.CombinedHash cls fld, ⟨f.offset, schema.IsFieldNetworked f⟩) :: cache)) ∧
    (∀ b f, schema.findField ci.fields fld = none → ci.base = some b →
        schema.findField b.fields fld = some f →
        schema.GetOffset env cache (some cls) (some fld)
          = (⟨f.offset, schema.IsFieldNetworked f⟩,
             (schema.CombinedHash cls fld, ⟨f.offset, schema.IsFieldNetworked f⟩) :: cache)) ∧
    (∀ b, schema.findField ci.fields fld = none → ci.base = some b →
        schema.findField b.fields fld = none →
        schema.GetOffset env cache (some cls) (some fld)
          = (⟨0, false⟩, (schema.CombinedHash cls fld, ⟨0, false⟩) :: cache)) := by
  refine ⟨?_, ?_, ?_⟩
  · intro f hf
    simp [schema.GetOffset, hmiss, hsys, hscope, hci, hf]
  · intro b f hown hbase hf
    simp [schema.GetOffset, hmiss, hsys, hscope, hci, hown, hbase, hf]
  · intro b hown hbase hf
    simp [schema.GetOffset, hmiss, hsys, hscope, hci, hown, hbase, hf]

/-- Three-level hierarchy for the C6 witness: class `"C"` declares
`m_own`, its immediate base declares `m_mid` (networked), and `m_deep`
lives two inheritance levels up. -/
def grandC6 : schema.ClassInfo := .mk [⟨some "m_deep", 0x40, []⟩] none

def parentC6 : schema.ClassInfo :=
  .mk [⟨some "m_mid", 0x20, [some "MNetworkEnable"]⟩] (some grandC6)

def childC6 : schema.ClassInfo := .mk [⟨some "m_own", 0x10, []⟩] (some parentC6)

def scopeC6 : String → Option schema.ClassInfo :=
  fun s => if s = "C" then some childC6 else none

def envC6 : schema.SchemaEnv := ⟨true, some scopeC6, none⟩

/-- Witness for C6 on the three-level hierarchy: the own field and the
immediate-base field resolve (the latter networked); the field two levels
up yields the cached `{0, false}` sentinel. -/
theorem schema_getOffset_one_level_witness :
    schema.GetOffset envC6 [] (some "C") (some "m_own")
      = (⟨0x10, false⟩, [(schema.CombinedHash "C" "m_own", ⟨0x10, false⟩)]) ∧
    schema.GetOffset envC6 [] (some "C") (some "m_mid")
      = (⟨0x20, true⟩, [(schema.CombinedHash "C" "m_mid", ⟨0x20, true⟩)]) ∧
    schema.GetOffset envC6 [] (some "C") (some "m_deep")
      = (⟨0, false⟩, [(schema.CombinedHash "C" "m_deep", ⟨0, false⟩)]) := by
  refine ⟨?_, ?_, ?_⟩
  · exact (schema_getOffset_one_level envC6 [] "C" "m_own" scopeC6 childC6
      rfl rfl rfl rfl).1 ⟨some "m_own", 0x10, []⟩ rfl
  · exact (schema_getOffset_one_level envC6 [] "C" "m_mid" scopeC6 childC6
      rfl rfl rfl rfl).2.1 parentC6 ⟨some "m_mid", 0x20, [some "MNetworkEnable"]⟩ rfl rfl rfl
  · exact (schema_getOffset_one_level envC6 [] "C" "m_deep" scopeC6 childC6
      rfl rfl rfl rfl).2.2 parentC6 rfl rfl rfl

/-! ## Go bridge initialization (`go_bridge.cpp`)

`dlopen`/`dlsym`, the Go side's ABI version and the result of
`GoStrike_Init` are external; they form the environment of one load
attempt.  The host state tracks `g_goLib`, `g_initialized`, which `pfn_*`
pointers are set, and whether the callback table has been handed over. -/

/-- `GOSTRIKE_ABI_VERSION` (include/gostrike_abi.h:21). -/
def GOSTRIKE_ABI_VERSION : Int := 1

/-- The twelve required Go entry points loaded via `LOAD_GO_SYMBOL`
(go_bridge.cpp:601-612), in load order. -/
def requiredGoSymbols : List String :=
  ["GoStrike_Init", "GoStrike_Shutdown", "GoStrike_OnTick", "GoStrike_OnEvent",
   "GoStrike_OnPlayerConnect", "GoStrike_OnPlayerDisconnect", "GoStrike_OnMapChange",
   "GoStrike_OnChatMessage", "GoStrike_GetLastError", "GoStrike_ClearLastError",
   "GoStrike_GetABIVersion", "GoStrike_RegisterCallbacks"]

/-- External environment of one bridge load attempt. -/
structure BridgeEnv where
  dlopenOk : Bool
  hasSymbol : String → Bool
  goAbiVersion : Int
  goInitResult : Int

/-- Host bridge state: `g_goLib != nullptr`, `g_initialized`, the names of
the `pfn_*` entry points currently resolved, and whether
`GoStrike_RegisterCallbacks` has handed over the callback table. -/
structure BridgeState where
  goLib : Bool
  initialized : Bool
  loadedSyms : List String
  callbacksRegistered : Bool

/-- The `LOAD_GO_SYMBOL` sequence (go_bridge.cpp:539-546, 601-612): resolve
the required names in order, keeping each success; the first failure stops
the sequence (its `return false` path), leaving the earlier pointers set. -/
def loadGoSymbols (env : BridgeEnv) : List String → List String × Bool
  | [] => ([], true)
  | s :: rest =>
      if env.hasSymbol s then
        ((s :: (loadGoSymbols env rest).1), (loadGoSymbols env rest).2)
      else ([], false)

/-- `GoBridge_Init` (go_bridge.cpp:577-654).  Already initialized: returns
success unchanged.  `dlopen` failure: returns failure, no handle.  A
required-symbol failure returns failure with the library still loaded and
the already-resolved entry points still set (the `return false` inside
`LOAD_GO_SYMBOL` performs no `dlclose`).  An ABI mismatch
(go_bridge.cpp:625-632) or a failing `GoStrike_Init` (lines 637-648)
`dlclose`s the library and clears `g_goLib` (the `pfn_*` pointers are not
cleared on these paths).  Otherwise `g_initialized` is set. -/
def GoBridge_Init (env : BridgeEnv) (s : BridgeState) : Bool × BridgeState :=
  if s.initialized then (true, s)
  else if !env.dlopenOk then (false, s)
  else
    let syms := (loadGoSymbols env requiredGoSymbols).1
    let ok := (loadGoSymbols env requiredGoSymbols).2
    if !ok then (false, { s with goLib := true, loadedSyms := syms })
    else if env.goAbiVersion ≠ GOSTRIKE_ABI_VERSION then
      (false, { s with goLib := false, loadedSyms := syms })
    else if env.goInitResult ≠ 0 then
      (false, { s with goLib := false, loadedSyms := syms })
    else
      (true, { s with goLib := true, initialized := true, loadedSyms := syms })

/-- `GoBridge_RegisterCallbacks` (go_bridge.cpp:656-717): a no-op unless
the bridge is initialized and `GoStrike_RegisterCallbacks` was resolved;
otherwise the fully populated callback table is handed to the Go side. -/
def GoBridge_RegisterCallbacks (s : BridgeState) : BridgeState :=
  if !s.initialized || !(s.loadedSyms.contains "GoStrike_RegisterCallbacks") then s
  else { s with callbacksRegistered := true }

/-- C7 counterexample: `dlopen` succeeds but the second required symbol
(`GoStrike_Shutdown`) fails to resolve — `GoBridge_Init` returns failure,
yet the Go library is still loaded (`g_goLib` set; no `dlclose` on the
`LOAD_GO_SYMBOL` failure path) and the first entry point is still
resolved, so partial bridge state does persist across this failed load. -/
theorem goBridge_init_symbol_failure_keeps_library :
    ((GoBridge_Init ⟨true, fun n => n == "GoStrike_Init", 1, 0⟩
        ⟨false, false, [], false⟩).1 = false) ∧
    ((GoBridge_Init ⟨true, fun n => n == "GoStrike_Init", 1, 0⟩
        ⟨false, false, [], false⟩).2.goLib = true) ∧
    ((GoBridge_Init ⟨true, fun n => n == "GoStrike_Init", 1, 0⟩
        ⟨false, false, [], false⟩).2.loadedSyms = ["GoStrike_Init"]) := by
  decide

/-- C7 (amended): every failing load attempt leaves `g_initialized` false,
so the callback table is never handed over after a failed load; the ABI
mismatch and Go-init failure paths additionally `dlclose` the library; but
a required-symbol resolution failure returns failure with the library
still loaded and the already-resolved entry points still set. -/
theorem goBridge_init_failure_behavior (env : BridgeEnv) (s : BridgeState)
    (hinit : s.initialized = false) :
    ((GoBridge_Init env s).1 = false →
        ((GoBridge_Init env s).2.initialized = false ∧
         GoBridge_RegisterCallbacks (GoBridge_Init env s).2 = (GoBridge_Init env s).2)) ∧
    (env.dlopenOk = true → (loadGoSymbols env requiredGoSymbols).2 = true →
        env.goAbiVersion ≠ GOSTRIKE_ABI_VERSION →
        (GoBridge_Init env s).1 = false ∧ (GoBridge_Init env s).2.goLib = false) ∧
    (env.dlopenOk = true → (loadGoSymbols env requiredGoSymbols).2 = true →
        env.goAbiVersion = GOSTRIKE_ABI_VERSION → env.goInitResult ≠ 0 →
        (GoBridge_Init env s).1 = false ∧ (GoBridge_Init env s).2.goLib = false) ∧
    (env.dlopenOk = true → (loadGoSymbols env requiredGoSymbols).2 = false →
        (GoBridge_Init env s).1 = false ∧ (GoBridge_Init env s).2.goLib = true) := by
  refine ⟨?_, ?_, ?_, ?_⟩
  · intro hfail
    cases hdl : env.dlopenOk with
    | false =>
        unfold GoBridge_Init at hfail ⊢
        simp [hinit, hdl] at hfail ⊢
        simp [GoBridge_RegisterCallbacks, hinit]
    | true =>
        unfold GoBridge_Init at hfail ⊢
        cases hok : (loadGoSymbols env requiredGoSymbols).2 with
        | false =>
            simp [hinit, hdl, hok]
            simp [GoBridge_RegisterCallbacks]
        | true =>
            by_cases habi : env.goAbiVersion = GOSTRIKE_ABI_VERSION
            · by_cases hres : env.goInitResult = 0
              · simp [hinit, hdl, hok, habi, hres] at hfail
              · simp [hinit, hdl, hok, habi, hres]
                simp [GoBridge_RegisterCallbacks]
            · simp [hinit, hdl, hok, habi]
              simp [GoBridge_RegisterCallbacks]
  · intro hdl hok habi
    unfold GoBridge_Init
    simp [hinit, hdl, hok, habi]
  · intro hdl hok habi hres
    unfold GoBridge_Init
    simp [hinit, hdl, hok, habi, hres]
  · intro hdl hok
    unfold GoBridge_Init
    simp [hinit, hdl, hok]

/-- Witness for C7 (amended) at concrete inputs: a version-mismatch load
(Go reports ABI version 2) fails with the library unloaded; a
symbol-failure load fails with the library still loaded; neither leaves
the bridge initialized or a callback table registered. -/
theorem goBridge_init_failure_behavior_witness :
    ((GoBridge_Init ⟨true, fun _ => true, 2, 0⟩ ⟨false, false, [], false⟩).1 = false ∧
     (GoBridge_Init ⟨true, fun _ => true, 2, 0⟩ ⟨false, false, [], false⟩).2.goLib = false) ∧
    ((GoBridge_Init ⟨true, fun _ => true, 2, 0⟩ ⟨false, false, [], false⟩).2.initialized = false ∧
     GoBridge_RegisterCallbacks (GoBridge_Init ⟨true, fun _ => true, 2, 0⟩
        ⟨false, false, [], false⟩).2
        = (GoBridge_Init ⟨true, fun _ => true, 2, 0⟩ ⟨false, false, [], false⟩).2) ∧
    ((GoBridge_Init ⟨true, fun n => n == "GoStrike_Init", 1, 0⟩
        ⟨false, false, [], false⟩).1 = false ∧
     (GoBridge_Init ⟨true, fun n => n == "GoStrike_Init", 1, 0⟩
        ⟨false, false, [], false⟩).2.goLib = true) := by
  refine ⟨?_, ?_, ?_⟩
  · exact (goBridge_init_failure_behavior ⟨true, fun _ => true, 2, 0⟩
      ⟨false, false, [], false⟩ rfl).2.1 rfl (by decide) (by decide)
  · exact (goBridge_init_failure_behavior ⟨true, fun _ => true, 2, 0⟩
      ⟨false, false, [], false⟩ rfl).1 (by decide)
  · exact (goBridge_init_failure_behavior ⟨true, fun n => n == "GoStrike_Init", 1, 0⟩
      ⟨false, false, [], false⟩ rfl).2.2.2 rfl (by decide)

/-! ## Detour initialization (`game_functions.cpp`, `chat_manager.cpp`)

The funchook library is external; the results of `funchook_create`,
`funchook_prepare` and `funchook_install` (and whether the target address
resolves) form the environment of one init attempt.  A ghost counter of
successful `funchook_install` calls makes double installation provable. -/

/-- External environment of one detour init attempt. -/
structure DetourEnv where
  targetResolves : Bool
  createOk : Bool
  prepareRv : Int
  installRv : Int

/-- Host detour state for one target: the statics `s_pDamageHook` and
`s_pOriginalTakeDamageOld` of game_functions.cpp:296-297 (identically
`s_pFunchook`/`s_pOriginalHostSay`, chat_manager.cpp:44-45), plus the ghost
count of successful installs performed on the target. -/
structure DetourState where
  hook : Bool
  original : Bool
  installs : Nat
deriving DecidableEq

/-- `GameFunc_InitDamageHook` (game_functions.cpp:339-378); the `Host_Say`
hook setup inside `ChatManager_Initialize` (chat_manager.cpp:102-141)
performs the identical sequence.  There is no guard on an existing hook:
the function resolves the target, captures the original, creates a new
funchook, prepares and installs it regardless of the current state.
Failure paths: an unresolved target leaves the state untouched; a
`funchook_create` failure leaves the freshly captured original pointer set
with a null hook; `funchook_prepare`/`funchook_install` failures destroy
the hook and clear both statics. -/
def GameFunc_InitDamageHook (env : DetourEnv) (s : DetourState) : DetourState :=
  if !env.targetResolves then s
  else if !env.createOk then { s with original := true, hook := false }
  else if env.prepareRv ≠ 0 then { s with hook := false, original := false }
  else if env.installRv ≠ 0 then { s with hook := false, original := false }
  else { hook := true, original := true, installs := s.installs + 1 }

/-- `GameFunc_ShutdownDamageHook` (game_functions.cpp:380-390), identically
`ChatManager_Shutdown` (chat_manager.cpp:146-156): uninstall and destroy
when a hook is present. -/
def GameFunc_ShutdownDamageHook (s : DetourState) : DetourState :=
  if s.hook then { hook := false, original := false, installs := s.installs } else s

/-- C8 counterexample: after a fully successful first init (hook installed,
one install performed), a second call to the initializer is *not*
rejected — it prepares and installs again, bringing the install count on
the same target to two. -/
theorem detour_reinit_not_rejected :
    (GameFunc_InitDamageHook ⟨true, true, 0, 0⟩ ⟨false, false, 0⟩
      = ⟨true, true, 1⟩) ∧
    (GameFunc_InitDamageHook ⟨true, true, 0, 0⟩
        (GameFunc_InitDamageHook ⟨true, true, 0, 0⟩ ⟨false, false, 0⟩)
      = ⟨true, true, 2⟩) := by
  decide

/-- C8 (amended): the detour initializers carry no already-installed
guard — from any state, including one with the hook already installed, a
successful attempt prepares and installs again, incrementing the install
count; the never-installed-twice invariant rests on call discipline (one
init per plugin load, shutdown on unload), and the only initializer with
an idempotence guard is `GoBridge_Init`, which returns success unchanged
when already initialized. -/
theorem detour_reinit_installs_again (env : DetourEnv) (s : DetourState)
    (henv : env = ⟨true, true, 0, 0⟩) :
    (GameFunc_InitDamageHook env s
      = ⟨true, true, s.installs + 1⟩) ∧
    (∀ benv : BridgeEnv, ∀ bs : BridgeState, bs.initialized = true →
      GoBridge_Init benv bs = (true, bs)) := by
  constructor
  · subst henv
    simp [GameFunc_InitDamageHook]
  · intro benv bs hbs
    unfold GoBridge_Init
    simp [hbs]

/-- Witness for C8 (amended): the second init on an already-installed
target installs again; an already-initialized bridge init is a no-op. -/
theorem detour_reinit_installs_again_witness :
    (GameFunc_InitDamageHook ⟨true, true, 0, 0⟩ ⟨true, true, 1⟩
      = ⟨true, true, 2⟩) ∧
    GoBridge_Init ⟨true, fun _ => true, 1, 0⟩ ⟨true, true, [], true⟩
      = (true, ⟨true, true, [], true⟩) := by
  constructor
  · exact (detour_reinit_installs_again ⟨true, true, 0, 0⟩ ⟨true, true, 1⟩ rfl).1
  · exact (detour_reinit_installs_again ⟨true, true, 0, 0⟩ ⟨true, true, 1⟩ rfl).2
      ⟨true, fun _ => true, 1, 0⟩ ⟨true, true, [], true⟩ rfl

/-! ## ABI boundary null-argument guards (`go_bridge.cpp`, `schema.cpp`) -/

/-- `CB_EntitySetInt` (go_bridge.cpp:315-327): null entity or null name
returns before anything else; otherwise the schema offset is resolved
(which may extend the schema cache), a zero offset aborts, and the value
is written at `entity + offset` (with the external `SetStateChanged`
notification when the field is networked). -/
def CB_EntitySetInt (env : schema.SchemaEnv) (cache : List (Nat × schema.SchemaKey))
    (mem : Int → Int) (entity : Option Int) (className fieldName : Option String)
    (value : Int) : (Int → Int) × List (Nat × schema.SchemaKey) :=
  match entity, className, fieldName with
  | some e, some cls, some fld =>
      let r := schema.GetOffset env cache (some cls) (some fld)
      if r.1.offset = 0 then (mem, r.2)
      else ((fun a => if a = e + r.1.offset then value else mem a), r.2)
  | _, _, _ => (mem, cache)

/-- `CB_ResolveGamedata` (go_bridge.cpp:448-451): null name returns the
null sentinel without consulting the resolver. -/
def CB_ResolveGamedata (mods : Modules) (c : GameConfig) (st : ResolveState)
    (name : Option String) : Option Nat × ResolveState :=
  match name with
  | none => (none, st)
  | some n => GameConfig.ResolveSignature mods c st n

/-- C9: boundary calls given null name/pointer arguments are no-ops: they
return a status or sentinel value and leave all host state — entity
memory, the schema cache, the gamedata address cache and scan count —
unchanged.  `CB_EntitySetInt` with any null argument returns with memory
and cache untouched; `schema::GetOffset` with a null class or field name
returns the `{0, false}` sentinel with the cache untouched;
`CB_ResolveGamedata` with a null name returns null with the resolver state
untouched. -/
theorem boundary_null_arguments_noop :
    (∀ env cache mem cls fld v,
        CB_EntitySetInt env cache mem none cls fld v = (mem, cache)) ∧
    (∀ env cache mem e fld v,
        CB_EntitySetInt env cache mem e none fld v = (mem, cache)) ∧
    (∀ env cache mem e cls v,
        CB_EntitySetInt env cache mem e cls none v = (mem, cache)) ∧
    (∀ env cache fld, schema.GetOffset env cache none fld = (⟨0, false⟩, cache)) ∧
    (∀ env cache cls, schema.GetOffset env cache cls none = (⟨0, false⟩, cache)) ∧
    (∀ mods c st, CB_ResolveGamedata mods c st none = (none, st)) := by
  refine ⟨?_, ?_, ?_, ?_, ?_, ?_⟩
  · intro env cache mem cls fld v
    cases cls <;> cases fld <;> rfl
  · intro env cache mem e fld v
    cases e <;> cases fld <;> rfl
  · intro env cache mem e cls v
    cases e <;> cases cls <;> rfl
  · intro env cache fld
    cases fld <;> rfl
  · intro env cache cls
    cases cls <;> rfl
  · intro mods c st
    rfl

end GoStrike
